import Mathlib

/-!
# Environment profiles and manifest composition (tools/cdk8s)

A shallow embedding of `tools/cdk8s/config.go` and `tools/cdk8s/main.go`.

* Go `string` is `String`; `jsii.String(s)` (a `*string`) is the string itself,
  and an unset pointer field of a property bag is `none`.
* Go `map[string]string` and `map[string]*string` literals are association
  lists in the order of the literal.
* Go `int` is `Int` (64 bits wide on the platforms the tool runs on); a
  `float64` obtained from an integer is represented by the integer it denotes,
  see `float64`.
* `fmt.Sprintf` with `%s` verbs is string concatenation.
-/

set_option linter.dupNamespace false

namespace Cdk8s

/-! ## config.go -/

/-- ConfigMapConfig defines configuration data for the environment. -/
structure ConfigMapConfig where
  Data : List (String × String)
  deriving DecidableEq, Repr

/-- Environment represents the configuration for different environments. -/
structure Environment where
  Name : String
  Namespace : String
  Replicas : Int
  Image : String
  Tag : String
  Host : String
  ConfigMap : ConfigMapConfig
  deriving DecidableEq, Repr

/-- GetEnvironmentConfig returns configuration for the specified environment:
the `switch env` of config.go, with its two cases and its default. -/
def GetEnvironmentConfig (env : String) : Environment :=
  if env = "production" ∨ env = "prod" then
    { Name := "production"
      Namespace := "production"
      Replicas := 5
      Image := "nginx"
      Tag := "1.21.6"
      Host := "myapp-prod.example.com"
      ConfigMap :=
        { Data :=
            [ ("environment", "production"),
              ("log_level", "warn"),
              ("database_url", "postgres://prod-db:5432/myapp"),
              ("redis_url", "redis://prod-redis:6379"),
              ("max_connections", "100") ] } }
  else if env = "staging" then
    { Name := "staging"
      Namespace := "staging"
      Replicas := 2
      Image := "nginx"
      Tag := "1.21.6"
      Host := "myapp-staging.example.com"
      ConfigMap :=
        { Data :=
            [ ("environment", "staging"),
              ("log_level", "info"),
              ("database_url", "postgres://staging-db:5432/myapp"),
              ("redis_url", "redis://staging-redis:6379"),
              ("max_connections", "50") ] } }
  else
    { Name := "development"
      Namespace := "default"
      Replicas := 1
      Image := "nginx"
      Tag := "1.19.10"
      Host := "myapp-dev.localhost"
      ConfigMap :=
        { Data :=
            [ ("environment", "development"),
              ("log_level", "debug"),
              ("database_url", "postgres://localhost:5432/myapp_dev"),
              ("redis_url", "redis://localhost:6379"),
              ("max_connections", "10") ] } }

/-! ## Integer to float64 conversion

`jsii.Number` takes a `float64`, so `NewChart` converts `env.Replicas` with
`float64(...)`.  Go rounds an integer that a float64 cannot hold to the nearest
representable value, ties to the even significand (IEEE 754).  Every float64
obtained this way denotes an integer, and that integer is what the model
returns. -/

/-- The multiple of `2 ^ e` nearest to `m`, a tie going to the even multiple. -/
def roundToEven (m e : Nat) : Nat :=
  let q := m / 2 ^ e
  let r := m % 2 ^ e
  let half := 2 ^ e / 2
  if half < r ∨ (r = half ∧ q % 2 = 1) then (q + 1) * 2 ^ e else q * 2 ^ e

/-- The number of low bits that `m` has beyond 53 significant bits, found by
halving; `fuel` bounds the number of halvings. -/
def excessBits : Nat → Nat → Nat
  | 0, _ => 0
  | fuel + 1, m => if m < 2 ^ 53 then 0 else excessBits fuel (m / 2) + 1

/-- The value of Go's `float64(n)` for an integer `n`: `n` itself while its
magnitude fits the 53-bit significand, and otherwise the magnitude rounded to
53 significant bits, with the sign of `n`.  A Go `int` has at most 64 bits, so
64 halvings are more than the search for the exponent needs. -/
def float64 (n : Int) : Int :=
  let m := n.natAbs
  if m < 2 ^ 53 then n
  else
    let e := excessBits 64 m
    if n < 0 then -((roundToEven m e : Nat) : Int) else ((roundToEven m e : Nat) : Int)

/-! ## The property bags of the imported k8s bindings

The package `imports/k8s` is generated and is not part of the sources; the
structures below carry the fields that `NewChart` populates, under the names
the struct literals of main.go use. -/

/-- The `k8s.ObjectMeta` fields used by main.go. -/
structure ObjectMeta where
  Name : Option String := none
  Labels : Option (List (String × String)) := none
  Annotations : Option (List (String × String)) := none
  deriving DecidableEq, Repr

/-- The `k8s.LabelSelector` fields used by main.go. -/
structure LabelSelector where
  MatchLabels : List (String × String)
  deriving DecidableEq, Repr

/-- The `k8s.ContainerPort` fields used by main.go. -/
structure ContainerPort where
  ContainerPort : Int
  Name : String
  deriving DecidableEq, Repr

/-- The `k8s.Container` fields used by main.go. -/
structure Container where
  Name : String
  Image : String
  Ports : List ContainerPort
  deriving DecidableEq, Repr

/-- The `k8s.PodSpec` fields used by main.go. -/
structure PodSpec where
  Containers : List Container
  deriving DecidableEq, Repr

/-- The `k8s.PodTemplateSpec` fields used by main.go. -/
structure PodTemplateSpec where
  Metadata : ObjectMeta
  Spec : PodSpec
  deriving DecidableEq, Repr

/-- The `k8s.DeploymentSpec` fields used by main.go. -/
structure DeploymentSpec where
  Replicas : Int
  Selector : LabelSelector
  Template : PodTemplateSpec
  deriving DecidableEq, Repr

/-- The `k8s.KubeDeploymentProps` of main.go. -/
structure KubeDeploymentProps where
  Metadata : ObjectMeta
  Spec : DeploymentSpec
  deriving DecidableEq, Repr

/-- The `k8s.IntOrString` union, built by `IntOrString_FromString` or
`IntOrString_FromNumber`. -/
inductive IntOrString where
  | FromString (value : String)
  | FromNumber (value : Int)
  deriving DecidableEq, Repr

/-- The `k8s.ServicePort` fields used by main.go. -/
structure ServicePort where
  Name : String
  Port : Int
  TargetPort : IntOrString
  Protocol : String
  deriving DecidableEq, Repr

/-- The `k8s.ServiceSpec` fields used by main.go (`Type_` is the field `Type`). -/
structure ServiceSpec where
  Type_ : String
  Selector : List (String × String)
  Ports : List ServicePort
  deriving DecidableEq, Repr

/-- The `k8s.KubeServiceProps` of main.go. -/
structure KubeServiceProps where
  Metadata : ObjectMeta
  Spec : ServiceSpec
  deriving DecidableEq, Repr

/-- The `k8s.ServiceBackendPort` fields used by main.go. -/
structure ServiceBackendPort where
  Number : Int
  deriving DecidableEq, Repr

/-- The `k8s.IngressServiceBackend` fields used by main.go. -/
structure IngressServiceBackend where
  Name : String
  Port : ServiceBackendPort
  deriving DecidableEq, Repr

/-- The `k8s.IngressBackend` fields used by main.go. -/
structure IngressBackend where
  Service : IngressServiceBackend
  deriving DecidableEq, Repr

/-- The `k8s.HttpIngressPath` fields used by main.go. -/
structure HttpIngressPath where
  Path : String
  PathType : String
  Backend : IngressBackend
  deriving DecidableEq, Repr

/-- The `k8s.HttpIngressRuleValue` fields used by main.go. -/
structure HttpIngressRuleValue where
  Paths : List HttpIngressPath
  deriving DecidableEq, Repr

/-- The `k8s.IngressRule` fields used by main.go. -/
structure IngressRule where
  Host : String
  Http : HttpIngressRuleValue
  deriving DecidableEq, Repr

/-- The `k8s.IngressSpec` fields used by main.go. -/
structure IngressSpec where
  Rules : List IngressRule
  deriving DecidableEq, Repr

/-- The `k8s.KubeIngressProps` of main.go. -/
structure KubeIngressProps where
  Metadata : ObjectMeta
  Spec : IngressSpec
  deriving DecidableEq, Repr

/-! ## The construct tree

`NewChart` only writes to the construct tree: it creates a chart under `scope`
and three API objects under the chart.  The model records the calls: for the
chart its scope, id and `ChartProps`, and for each API object its construct id
and property bag. -/

/-- The `cdk8s.AppProps` fields used by main.go. -/
structure AppProps where
  Outdir : String
  deriving DecidableEq, Repr

/-- The root construct created by `cdk8s.NewApp`. -/
structure App where
  props : AppProps
  deriving DecidableEq, Repr

/-- The `cdk8s.ChartProps` fields used by main.go. -/
structure ChartProps where
  Namespace : String
  deriving DecidableEq, Repr

/-- An API object added to a chart: the construct id and the property bag of
the `k8s.NewKube...` call. -/
structure ApiObject (P : Type) where
  id : String
  props : P
  deriving DecidableEq, Repr

/-- The chart returned by `NewChart`, with the three API objects added to it. -/
structure Chart where
  scope : App
  id : String
  props : ChartProps
  deployment : ApiObject KubeDeploymentProps
  service : ApiObject KubeServiceProps
  ingress : ApiObject KubeIngressProps
  deriving DecidableEq, Repr

/-! ## main.go -/

/-- The function `NewChart` of main.go. -/
def NewChart (scope : App) (id : String) (env : Environment) : Chart :=
  -- Generate consistent app label
  let appLabel := "my-app"
  let podSelector : List (String × String) := [("app", appLabel)]
  -- Create Service pointing to the Deployment pods
  let serviceName := appLabel ++ "-service"
  -- Create Ingress pointing to the Service
  let pathTypePrefix := "Prefix"
  { scope := scope
    id := id
    props := { Namespace := env.Namespace }
    deployment :=
      { id := "deployment"
        props :=
          { Metadata := {}
            Spec :=
              { Replicas := float64 env.Replicas
                Selector := { MatchLabels := podSelector }
                Template :=
                  { Metadata := { Labels := some podSelector }
                    Spec :=
                      { Containers :=
                          [ { Name := "app-container"
                              Image := env.Image ++ ":" ++ env.Tag
                              Ports := [ { ContainerPort := 80, Name := "http" } ] } ] } } } } }
    service :=
      { id := "service"
        props :=
          { Metadata := { Name := some serviceName }
            Spec :=
              { Type_ := "ClusterIP"
                Selector := podSelector
                Ports :=
                  [ { Name := "http"
                      Port := 80
                      TargetPort := IntOrString.FromString "http"
                      Protocol := "TCP" } ] } } }
    ingress :=
      { id := "ingress"
        props :=
          { Metadata :=
              { Name := some (appLabel ++ "-ingress")
                Annotations := some [("kubernetes.io/ingress.class", "nginx")] }
            Spec :=
              { Rules :=
                  [ { Host := env.Host
                      Http :=
                        { Paths :=
                            [ { Path := "/"
                                PathType := pathTypePrefix
                                Backend :=
                                  { Service :=
                                      { Name := serviceName
                                        Port := { Number := 80 } } } } ] } } ] } } } }

/-- The construct-tree part of `main`: resolve the environment named by the
`-env` flag, create the app with its output directory and the chart in it. -/
def mainChart (envFlag : String) : Chart :=
  let env := GetEnvironmentConfig envFlag
  let app : App := { props := { Outdir := "dist/" ++ env.Name } }
  NewChart app ("app-" ++ env.Name) env

/-! ## Properties of the resolver and of the composer -/

/-- The conversion `float64(n)` is exact for every integer of magnitude at most
`2 ^ 53`. -/
theorem float64_exact (n : Int) (h : n.natAbs ≤ 2 ^ 53) : float64 n = n := by
  rcases Nat.lt_or_ge n.natAbs (2 ^ 53) with hlt | hge
  · simp only [float64, hlt, if_true]
  · have hm : n.natAbs = 2 ^ 53 := Nat.le_antisymm h hge
    rcases Int.natAbs_eq n with hn | hn
    · rw [hm] at hn; subst hn; decide
    · rw [hm] at hn; subst hn; decide

/-- The resolver has three results: the production profile for the keys
"production" and "prod", the staging profile for "staging", and the
development profile for every other key. -/
theorem GetEnvironmentConfig_cases (key : String) :
    GetEnvironmentConfig key = GetEnvironmentConfig "production" ∨
      GetEnvironmentConfig key = GetEnvironmentConfig "staging" ∨
      GetEnvironmentConfig key = GetEnvironmentConfig "development" := by
  by_cases hp : key = "production" ∨ key = "prod"
  · left
    rcases hp with hp | hp <;> subst hp <;> decide
  · by_cases hs : key = "staging"
    · right; left
      subst hs; rfl
    · right; right
      unfold GetEnvironmentConfig
      rw [if_neg hp, if_neg hs]
      decide

/-- The keys "production" and "prod" resolve to the production profile. -/
theorem GetEnvironmentConfig_of_production (key : String)
    (h : key = "production" ∨ key = "prod") :
    GetEnvironmentConfig key = GetEnvironmentConfig "production" := by
  rcases h with h | h <;> subst h <;> decide

/-- A key other than "production", "prod" and "staging" resolves to the
development profile. -/
theorem GetEnvironmentConfig_of_other (key : String)
    (hp : ¬ (key = "production" ∨ key = "prod")) (hs : key ≠ "staging") :
    GetEnvironmentConfig key = GetEnvironmentConfig "development" := by
  unfold GetEnvironmentConfig
  rw [if_neg hp, if_neg hs]
  decide

/-- The replica count that NewChart writes is the float64 of the profile's. -/
theorem replicas_of_NewChart (scope : App) (id : String) (env : Environment) :
    (NewChart scope id env).deployment.props.Spec.Replicas = float64 env.Replicas :=
  rfl

/-- The images of the containers that NewChart writes. -/
theorem images_of_NewChart (scope : App) (id : String) (env : Environment) :
    (NewChart scope id env).deployment.props.Spec.Template.Spec.Containers.map (fun c => c.Image)
      = [env.Image ++ ":" ++ env.Tag] :=
  rfl

/-- Claim C1: for every environment key, in the chart that NewChart builds from
GetEnvironmentConfig key the labels of the deployment's pod template are the
selector of the service, and both are the one-entry map app = "my-app". -/
theorem NewChart_podLabels_eq_serviceSelector (scope : App) (id key : String) :
    (NewChart scope id (GetEnvironmentConfig key)).deployment.props.Spec.Template.Metadata.Labels
        = some (NewChart scope id (GetEnvironmentConfig key)).service.props.Spec.Selector ∧
      (NewChart scope id (GetEnvironmentConfig key)).deployment.props.Spec.Template.Metadata.Labels
        = some [("app", "my-app")] ∧
      (NewChart scope id (GetEnvironmentConfig key)).service.props.Spec.Selector
        = [("app", "my-app")] :=
  ⟨rfl, rfl, rfl⟩

/-- Claim C2: GetEnvironmentConfig is a total function, and for every key other
than "production", "prod" and "staging" its result is the development profile:
it equals GetEnvironmentConfig "development", whose fields are name
"development", namespace "default", 1 replica, image "nginx", tag "1.19.10" and
host "myapp-dev.localhost". -/
theorem GetEnvironmentConfig_fallback (key : String)
    (hproduction : key ≠ "production") (hprod : key ≠ "prod") (hstaging : key ≠ "staging") :
    GetEnvironmentConfig key = GetEnvironmentConfig "development" ∧
      (GetEnvironmentConfig key).Name = "development" ∧
      (GetEnvironmentConfig key).Namespace = "default" ∧
      (GetEnvironmentConfig key).Replicas = 1 ∧
      (GetEnvironmentConfig key).Image = "nginx" ∧
      (GetEnvironmentConfig key).Tag = "1.19.10" ∧
      (GetEnvironmentConfig key).Host = "myapp-dev.localhost" := by
  have hp : ¬ (key = "production" ∨ key = "prod") := by
    rintro (h | h)
    · exact hproduction h
    · exact hprod h
  have hkey : GetEnvironmentConfig key = GetEnvironmentConfig "development" := by
    unfold GetEnvironmentConfig
    rw [if_neg hp, if_neg hstaging]
    decide
  rw [hkey]
  exact ⟨rfl, rfl, rfl, rfl, rfl, rfl, rfl⟩

/-- Witness for C2 at the keys "Production", "STAGING", "development" and the
empty key. -/
theorem GetEnvironmentConfig_fallback_witness :
    ("Production" ≠ "production" ∧ "Production" ≠ "prod" ∧ "Production" ≠ "staging") ∧
      GetEnvironmentConfig "Production" = GetEnvironmentConfig "development" ∧
      GetEnvironmentConfig "STAGING" = GetEnvironmentConfig "development" ∧
      GetEnvironmentConfig "" = GetEnvironmentConfig "development" ∧
      (GetEnvironmentConfig "development").Host = "myapp-dev.localhost" :=
  ⟨⟨by decide, by decide, by decide⟩,
    (GetEnvironmentConfig_fallback "Production" (by decide) (by decide) (by decide)).1,
    (GetEnvironmentConfig_fallback "STAGING" (by decide) (by decide) (by decide)).1,
    (GetEnvironmentConfig_fallback "" (by decide) (by decide) (by decide)).1,
    (GetEnvironmentConfig_fallback "development" (by decide) (by decide) (by decide)).2.2.2.2.2.2⟩

/-- Claim C3: for every key the name of the resolved profile is "development",
"staging" or "production", each of the three names is the name of some resolved
profile, and the keys "prod" and "production" resolve to the same profile, the
settings map included. -/
theorem GetEnvironmentConfig_name_closed :
    (∀ key : String,
        (GetEnvironmentConfig key).Name = "development" ∨
          (GetEnvironmentConfig key).Name = "staging" ∨
          (GetEnvironmentConfig key).Name = "production") ∧
      (GetEnvironmentConfig "development").Name = "development" ∧
      (GetEnvironmentConfig "staging").Name = "staging" ∧
      (GetEnvironmentConfig "production").Name = "production" ∧
      GetEnvironmentConfig "prod" = GetEnvironmentConfig "production" ∧
      (GetEnvironmentConfig "prod").ConfigMap.Data
        = (GetEnvironmentConfig "production").ConfigMap.Data := by
  refine ⟨?_, by decide, by decide, by decide, by decide, by decide⟩
  intro key
  rcases GetEnvironmentConfig_cases key with h | h | h <;> rw [h]
  · right; right; rfl
  · right; left; rfl
  · left; rfl

/-- Claim C4, as stated, fails: NewChart takes no application name, and for the
application name "web" the service it composes for the staging profile is not
named "web-service", nor is the ingress named "web-ingress"; taking the chart
id as the application name fails as well. -/
theorem appName_not_read_by_NewChart :
    (NewChart { props := { Outdir := "dist/staging" } } "app-staging"
        (GetEnvironmentConfig "staging")).service.props.Metadata.Name
        ≠ some ("web" ++ "-service") ∧
      (NewChart { props := { Outdir := "dist/staging" } } "app-staging"
        (GetEnvironmentConfig "staging")).ingress.props.Metadata.Name
        ≠ some ("web" ++ "-ingress") ∧
      (NewChart { props := { Outdir := "dist/staging" } } "web"
        (GetEnvironmentConfig "staging")).service.props.Metadata.Name
        ≠ some ("web" ++ "-service") ∧
      (NewChart { props := { Outdir := "dist/staging" } } "app-staging"
        (GetEnvironmentConfig "staging")).service.props.Metadata.Name
        = some "my-app-service" := by
  decide

/-- Claim C4, amended: for every scope, chart id and profile, the service
composed by NewChart is named "my-app-service", the fixed application name
"my-app" followed by "-service", the ingress is named "my-app-ingress", that
name followed by "-ingress", and the service name referenced by the backend of
every ingress path is the name of the generated service. -/
theorem NewChart_names (scope : App) (id : String) (env : Environment) :
    (NewChart scope id env).service.props.Metadata.Name = some ("my-app" ++ "-service") ∧
      (NewChart scope id env).service.props.Metadata.Name = some "my-app-service" ∧
      (NewChart scope id env).ingress.props.Metadata.Name = some ("my-app" ++ "-ingress") ∧
      (NewChart scope id env).ingress.props.Metadata.Name = some "my-app-ingress" ∧
      ((NewChart scope id env).ingress.props.Spec.Rules.map
          fun rule => rule.Http.Paths.map fun path => some path.Backend.Service.Name)
        = [[(NewChart scope id env).service.props.Metadata.Name]] :=
  ⟨rfl, congrArg some (by decide : "my-app" ++ "-service" = "my-app-service"),
    rfl, congrArg some (by decide : "my-app" ++ "-ingress" = "my-app-ingress"), rfl⟩

/-- Claim C5: for every profile the deployment built by NewChart has exactly one
container, whose image is the profile's Image, a colon and the profile's Tag;
for the profiles resolved from "production", "prod" and "staging" the image is
"nginx:1.21.6" and for the profile of every other key it is "nginx:1.19.10". -/
theorem NewChart_container_image (scope : App) (id : String) :
    (∀ env : Environment,
        (NewChart scope id env).deployment.props.Spec.Template.Spec.Containers.length = 1 ∧
          (NewChart scope id env).deployment.props.Spec.Template.Spec.Containers.map
              (fun c => c.Image)
            = [env.Image ++ ":" ++ env.Tag]) ∧
      ∀ key : String,
        (NewChart scope id (GetEnvironmentConfig key)).deployment.props.Spec.Template.Spec.Containers.map
            (fun c => c.Image)
          = [if key = "production" ∨ key = "prod" ∨ key = "staging" then "nginx:1.21.6"
              else "nginx:1.19.10"] := by
  refine ⟨fun env => ⟨rfl, rfl⟩, ?_⟩
  intro key
  rw [images_of_NewChart]
  by_cases hp : key = "production" ∨ key = "prod"
  · have hc : key = "production" ∨ key = "prod" ∨ key = "staging" := by
      rcases hp with h | h
      · exact Or.inl h
      · exact Or.inr (Or.inl h)
    rw [if_pos hc, GetEnvironmentConfig_of_production key hp]
    decide
  · by_cases hs : key = "staging"
    · rw [if_pos (Or.inr (Or.inr hs)), hs]
      decide
    · have hc : ¬ (key = "production" ∨ key = "prod" ∨ key = "staging") := by
        rintro (h | h | h)
        · exact hp (Or.inl h)
        · exact hp (Or.inr h)
        · exact hs h
      rw [if_neg hc, GetEnvironmentConfig_of_other key hp hs]
      decide

/-- Claim C6, as stated, fails: for a profile with 9007199254740993 replicas
(2 ^ 53 + 1, a value of Go's 64-bit int) the replica count of the deployment,
float64 of that number, is 9007199254740992 and not the profile's Replicas. -/
theorem float64_rounds_large_replicas :
    (NewChart { props := { Outdir := "dist/development" } } "app-development"
        { Name := "development", Namespace := "default", Replicas := 9007199254740993,
          Image := "nginx", Tag := "1.19.10", Host := "myapp-dev.localhost",
          ConfigMap := { Data := [] } }).deployment.props.Spec.Replicas
        = 9007199254740992 ∧
      (NewChart { props := { Outdir := "dist/development" } } "app-development"
        { Name := "development", Namespace := "default", Replicas := 9007199254740993,
          Image := "nginx", Tag := "1.19.10", Host := "myapp-dev.localhost",
          ConfigMap := { Data := [] } }).deployment.props.Spec.Replicas
        ≠ 9007199254740993 := by
  decide

/-- Claim C6, amended: for every profile whose Replicas has magnitude at most
2 ^ 53, the replica count of the deployment built by NewChart, float64 of
Replicas, equals Replicas exactly; and for the resolved profiles it is 5 for
"production" and "prod", 2 for "staging" and 1 for every other key. -/
theorem NewChart_replicas (scope : App) (id : String) (env : Environment)
    (hsmall : env.Replicas.natAbs ≤ 2 ^ 53) :
    (NewChart scope id env).deployment.props.Spec.Replicas = env.Replicas ∧
      ∀ key : String,
        (NewChart scope id (GetEnvironmentConfig key)).deployment.props.Spec.Replicas
          = if key = "production" ∨ key = "prod" then 5 else if key = "staging" then 2 else 1 := by
  refine ⟨float64_exact env.Replicas hsmall, ?_⟩
  intro key
  rw [replicas_of_NewChart]
  by_cases hp : key = "production" ∨ key = "prod"
  · rw [if_pos hp, GetEnvironmentConfig_of_production key hp]
    decide
  · by_cases hs : key = "staging"
    · rw [if_neg hp, if_pos hs, hs]
      decide
    · rw [if_neg hp, if_neg hs, GetEnvironmentConfig_of_other key hp hs]
      decide

/-- Witness for the amended C6 at the production profile, with 5 replicas. -/
theorem NewChart_replicas_witness :
    (GetEnvironmentConfig "production").Replicas.natAbs ≤ 2 ^ 53 ∧
      (NewChart { props := { Outdir := "dist/production" } } "app-production"
        (GetEnvironmentConfig "production")).deployment.props.Spec.Replicas = 5 :=
  ⟨by decide,
    (NewChart_replicas { props := { Outdir := "dist/production" } } "app-production"
      (GetEnvironmentConfig "production") (by decide)).1⟩

/-- Claim C7: for every profile the traffic path built by NewChart is wired
consistently.  The single container exposes exactly one port, number 80 named
"http"; the service has type ClusterIP and one port, 80, whose target port is
the name "http", the name of the container port; the ingress has exactly one
rule, for the profile's Host, with exactly one path "/" of path type "Prefix"
whose backend port number is 80, the port of the service. -/
theorem NewChart_traffic_path (scope : App) (id : String) (env : Environment) :
    (NewChart scope id env).deployment.props.Spec.Template.Spec.Containers.map (fun c => c.Ports)
        = [[{ ContainerPort := 80, Name := "http" }]] ∧
      (NewChart scope id env).service.props.Spec.Type_ = "ClusterIP" ∧
      (NewChart scope id env).service.props.Spec.Ports.map (fun p => (p.Port, p.TargetPort))
        = [(80, IntOrString.FromString "http")] ∧
      ((NewChart scope id env).service.props.Spec.Ports.map fun p => p.TargetPort)
        = ((NewChart scope id env).deployment.props.Spec.Template.Spec.Containers.flatMap
            fun c => c.Ports.map fun p => IntOrString.FromString p.Name) ∧
      (NewChart scope id env).ingress.props.Spec.Rules.map (fun r => r.Host) = [env.Host] ∧
      ((NewChart scope id env).ingress.props.Spec.Rules.map
          fun r => r.Http.Paths.map fun p => (p.Path, p.PathType, p.Backend.Service.Port.Number))
        = [[("/", "Prefix", 80)]] ∧
      ((NewChart scope id env).ingress.props.Spec.Rules.flatMap
          fun r => r.Http.Paths.map fun p => p.Backend.Service.Port.Number)
        = ((NewChart scope id env).service.props.Spec.Ports.map fun p => p.Port) :=
  ⟨rfl, rfl, rfl, rfl, rfl, rfl, rfl⟩

/-- Claim C8: the key "staging" resolves to the profile with namespace
"staging", 2 replicas, image "nginx", tag "1.21.6" (image reference
"nginx:1.21.6") and host "myapp-staging.example.com"; NewChart applied to that
profile, whose application name is "my-app", yields a service named
"my-app-service", an ingress named "my-app-ingress" and one ingress rule, whose
host is "myapp-staging.example.com". -/
theorem staging_end_to_end (scope : App) (id : String) :
    (GetEnvironmentConfig "staging").Namespace = "staging" ∧
      (GetEnvironmentConfig "staging").Replicas = 2 ∧
      (GetEnvironmentConfig "staging").Image = "nginx" ∧
      (GetEnvironmentConfig "staging").Tag = "1.21.6" ∧
      (GetEnvironmentConfig "staging").Image ++ ":" ++ (GetEnvironmentConfig "staging").Tag
        = "nginx:1.21.6" ∧
      (GetEnvironmentConfig "staging").Host = "myapp-staging.example.com" ∧
      (NewChart scope id (GetEnvironmentConfig "staging")).service.props.Metadata.Name
        = some "my-app-service" ∧
      (NewChart scope id (GetEnvironmentConfig "staging")).ingress.props.Metadata.Name
        = some "my-app-ingress" ∧
      (NewChart scope id (GetEnvironmentConfig "staging")).ingress.props.Spec.Rules.map
          (fun r => r.Host)
        = ["myapp-staging.example.com"] ∧
      (mainChart "staging").service.props.Metadata.Name = some "my-app-service" ∧
      (mainChart "staging").ingress.props.Metadata.Name = some "my-app-ingress" ∧
      (mainChart "staging").ingress.props.Spec.Rules.map (fun r => r.Host)
        = ["myapp-staging.example.com"] := by
  refine ⟨by decide, by decide, by decide, by decide, by decide, by decide, ?_, ?_, ?_,
    by decide, by decide, by decide⟩
  · exact congrArg some (by decide : "my-app" ++ "-service" = "my-app-service")
  · exact congrArg some (by decide : "my-app" ++ "-ingress" = "my-app-ingress")
  · exact congrArg (fun h => [h])
      (by decide : (GetEnvironmentConfig "staging").Host = "myapp-staging.example.com")

/-- Claim C9: for every key the profile returned by GetEnvironmentConfig has a
non-empty Namespace, Image, Tag and Host, and at least 1 replica. -/
theorem GetEnvironmentConfig_wellFormed (key : String) :
    (GetEnvironmentConfig key).Namespace ≠ "" ∧
      (GetEnvironmentConfig key).Image ≠ "" ∧
      (GetEnvironmentConfig key).Tag ≠ "" ∧
      (GetEnvironmentConfig key).Host ≠ "" ∧
      1 ≤ (GetEnvironmentConfig key).Replicas := by
  rcases GetEnvironmentConfig_cases key with h | h | h <;> rw [h] <;> decide

/-- Claim C10: the chart built by NewChart depends only on its scope, its id
and the profile's Namespace, Replicas, Image, Tag and Host: two profiles that
agree on these five fields give the same chart, with the same deployment,
service and ingress, whatever their Name and their ConfigMap data are; in
particular replacing the Name and the settings of a profile changes nothing. -/
theorem NewChart_depends_on_five_fields (scope : App) (id : String) (env₁ env₂ : Environment)
    (hNamespace : env₁.Namespace = env₂.Namespace) (hReplicas : env₁.Replicas = env₂.Replicas)
    (hImage : env₁.Image = env₂.Image) (hTag : env₁.Tag = env₂.Tag)
    (hHost : env₁.Host = env₂.Host) :
    NewChart scope id env₁ = NewChart scope id env₂ ∧
      (NewChart scope id env₁).deployment = (NewChart scope id env₂).deployment ∧
      (NewChart scope id env₁).service = (NewChart scope id env₂).service ∧
      (NewChart scope id env₁).ingress = (NewChart scope id env₂).ingress ∧
      ∀ (name : String) (data : List (String × String)),
        NewChart scope id { env₁ with Name := name, ConfigMap := { Data := data } }
          = NewChart scope id env₁ := by
  have hchart : NewChart scope id env₁ = NewChart scope id env₂ := by
    unfold NewChart
    rw [hNamespace, hReplicas, hImage, hTag, hHost]
  exact ⟨hchart, by rw [hchart], by rw [hchart], by rw [hchart], fun _ _ => rfl⟩

/-- Witness for C10: the staging profile and a profile with another Name and
other settings, equal on the five fields, give the same chart. -/
theorem NewChart_depends_on_five_fields_witness :
    (GetEnvironmentConfig "staging").Name ≠ "canary" ∧
      (GetEnvironmentConfig "staging").ConfigMap.Data ≠ [("log_level", "trace")] ∧
      NewChart { props := { Outdir := "dist/staging" } } "app-staging"
          (GetEnvironmentConfig "staging")
        = NewChart { props := { Outdir := "dist/staging" } } "app-staging"
          { Name := "canary", Namespace := "staging", Replicas := 2, Image := "nginx",
            Tag := "1.21.6", Host := "myapp-staging.example.com",
            ConfigMap := { Data := [("log_level", "trace")] } } :=
  ⟨by decide, by decide,
    (NewChart_depends_on_five_fields { props := { Outdir := "dist/staging" } } "app-staging"
      (GetEnvironmentConfig "staging")
      { Name := "canary", Namespace := "staging", Replicas := 2, Image := "nginx",
        Tag := "1.21.6", Host := "myapp-staging.example.com",
        ConfigMap := { Data := [("log_level", "trace")] } }
      (by decide) (by decide) (by decide) (by decide) (by decide)).1⟩

end Cdk8s
